import Mathlib

/-!
Shallow embedding of the `jot` Go package (doozr/jot, file `src/jot.go`).

The package holds a single standard `Jotter` value gating print-style calls
to a pluggable `Printer` sink. The `Jotter` struct's own methods live in a
repository file that is not under `src/` (only the package-level functions,
the standard instance and its construction are); those methods are modelled
from the specification and marked as such in their doc comments. Everything
else is translated from `src/jot.go`.

Observable behaviour is captured as a trace semantics: each operation maps a
`Jotter` state to a new state together with the list of sink calls the
operation caused, each call recording the sink reference it was sent to and
the verbatim arguments.
-/

namespace Jot

/-- Output destination of a logger. Models the `io.Writer` handed to
`log.New`; `src/jot.go` line 76 uses `os.Stderr`. -/
inductive Writer where
  | stderr
  | stdout
  | file (name : String)
deriving DecidableEq, Repr

namespace GoLog

/-- Flag bit Ldate of Go's standard `log` package: print the date. -/
def Ldate : Nat := 1

/-- Flag bit Ltime of Go's standard `log` package: print the time. -/
def Ltime : Nat := 2

/-- Flag bit Lmicroseconds of Go's standard `log` package. -/
def Lmicroseconds : Nat := 4

/-- Flag bit Llongfile of Go's standard `log` package. -/
def Llongfile : Nat := 8

/-- Flag bit Lshortfile of Go's standard `log` package. -/
def Lshortfile : Nat := 16

/-- Flag bit LUTC of Go's standard `log` package: when set, timestamps are
UTC; when clear, timestamps use the local time zone. -/
def LUTC : Nat := 32

/-- Flag bit Lmsgprefix of Go's standard `log` package. -/
def Lmsgprefix : Nat := 64

/-- Go's `log.LstdFlags`, the standard timestamp flags: `Ldate | Ltime`. -/
def LstdFlags : Nat := Ldate ||| Ltime

/-- Configuration state of a Go `log.Logger`: output writer, line marker
string (the logger's prefix argument), and flag bits. -/
structure Logger where
  out : Writer
  pfx : String
  flag : Nat
deriving DecidableEq, Repr

/-- Go's `log.New(w, p, flag)` constructor: builds a `Logger` with the given
writer, line marker string and flags. -/
def New (w : Writer) (p : String) (f : Nat) : Logger :=
  { out := w, pfx := p, flag := f }

end GoLog

/-- A concrete sink satisfying the `Printer` interface: either a standard
`log.Logger` (the default case in `src/jot.go`) or any other conforming
implementation, identified abstractly. -/
inductive Printer where
  | logger (l : GoLog.Logger)
  | custom (id : Nat)
deriving DecidableEq, Repr

/-- A single call received by a sink, recording the operation and the
verbatim arguments. `α` is the type standing for Go's opaque variadic
`interface` values. -/
inductive PrinterCall (α : Type) where
  | print (args : List α)
  | printf (format : String) (args : List α)
  | println (args : List α)
deriving DecidableEq, Repr

/-- An observable event: a sink call together with the sink reference it was
sent to. The reference is `Option Printer` because a Go interface value can
be nil (`none`). -/
abbrev Event (α : Type) := Option Printer × PrinterCall α

/-- The `Jotter` struct of the package: the enabled flag and the `printer`
field holding the sink reference (`none` models a nil interface value). -/
structure Jotter where
  enabled : Bool
  printer : Option Printer
deriving DecidableEq, Repr

/-- Modelled from the spec: the Gate operation `Enable()` (a `Jotter` method
defined in a repository file absent from `src/`) sets `enabled = true`, with
no other effect and no sink calls. -/
def Jotter.Enable (s : Jotter) : Jotter :=
  { s with enabled := true }

/-- Modelled from the spec: the Gate operation `Disable()` (a `Jotter` method
defined in a repository file absent from `src/`) sets `enabled = false`, with
no other effect and no sink calls. -/
def Jotter.Disable (s : Jotter) : Jotter :=
  { s with enabled := false }

/-- Modelled from the spec: the Gate operation `SetSink(sink)` on a `Jotter`
instance replaces the active sink reference, with no other effect. -/
def Jotter.SetPrinter (s : Jotter) (p : Option Printer) : Jotter :=
  { s with printer := p }

/-- Modelled from the spec: the Gate operation `Print(args...)` (a `Jotter`
method defined in a repository file absent from `src/`) forwards `args`
unmodified to `sink.Print(args)` if enabled, else is a no-op. -/
def Jotter.Print {α : Type} (s : Jotter) (v : List α) :
    Jotter × List (Event α) :=
  if s.enabled then (s, [(s.printer, PrinterCall.print v)]) else (s, [])

/-- Modelled from the spec: the Gate operation `Printf(format, args...)`
forwards `format` and `args` unmodified to `sink.Printf(format, args)` if
enabled, else is a no-op. -/
def Jotter.Printf {α : Type} (s : Jotter) (f : String) (v : List α) :
    Jotter × List (Event α) :=
  if s.enabled then (s, [(s.printer, PrinterCall.printf f v)]) else (s, [])

/-- Modelled from the spec: the Gate operation `Println(args...)` forwards
`args` unmodified to `sink.Println(args)` if enabled, else is a no-op. -/
def Jotter.Println {α : Type} (s : Jotter) (v : List α) :
    Jotter × List (Event α) :=
  if s.enabled then (s, [(s.printer, PrinterCall.println v)]) else (s, [])

/-- The standard package-level `Jotter` instance, `src/jot.go` lines 74-77:
constructed with `enabled: false` and
`printer: log.New(os.Stderr, "", log.LstdFlags)`. -/
def jotter : Jotter :=
  { enabled := false
    printer := some (Printer.logger (GoLog.New Writer.stderr "" GoLog.LstdFlags)) }

/-- Package-level `SetPrinter`, `src/jot.go` lines 80-82: assigns the
argument to the standard Jotter's `printer` field unconditionally. The
package state is passed explicitly. -/
def SetPrinter (p : Option Printer) (s : Jotter) : Jotter :=
  { s with printer := p }

/-- Package-level `Enable`, `src/jot.go` lines 85-87: delegates to
`jotter.Enable()`. -/
def Enable (s : Jotter) : Jotter :=
  s.Enable

/-- Package-level `Disable`, `src/jot.go` lines 90-92: delegates to
`jotter.Disable()`. -/
def Disable (s : Jotter) : Jotter :=
  s.Disable

/-- Package-level `Print`, `src/jot.go` lines 96-98: delegates to
`jotter.Print(v...)`. -/
def Print {α : Type} (v : List α) (s : Jotter) : Jotter × List (Event α) :=
  s.Print v

/-- Package-level `Printf`, `src/jot.go` lines 102-104: delegates to
`jotter.Printf(format, v...)`. -/
def Printf {α : Type} (f : String) (v : List α) (s : Jotter) :
    Jotter × List (Event α) :=
  s.Printf f v

/-- Package-level `Println`, `src/jot.go` lines 108-110: delegates to
`jotter.Println(v...)`. -/
def Println {α : Type} (v : List α) (s : Jotter) : Jotter × List (Event α) :=
  s.Println v

/-- One Gate operation, for quantifying over sequences of calls. -/
inductive Op (α : Type) where
  | enable
  | disable
  | setPrinter (p : Option Printer)
  | print (v : List α)
  | printf (f : String) (v : List α)
  | println (v : List α)
deriving DecidableEq, Repr

/-- Effect of one package-level operation on the package state: the new
state and the sink calls the operation caused. -/
def step {α : Type} (s : Jotter) : Op α → Jotter × List (Event α)
  | Op.enable => (Enable s, [])
  | Op.disable => (Disable s, [])
  | Op.setPrinter p => (SetPrinter p s, [])
  | Op.print v => Print v s
  | Op.printf f v => Printf f v s
  | Op.println v => Println v s

/-- Run a sequence of operations from a state, collecting the trace of sink
calls in order. -/
def run {α : Type} (s : Jotter) : List (Op α) → Jotter × List (Event α)
  | [] => (s, [])
  | op :: ops =>
      ((run (step s op).1 ops).1, (step s op).2 ++ (run (step s op).1 ops).2)

theorem run_append {α : Type} (s : Jotter) (xs ys : List (Op α)) :
    run s (xs ++ ys) =
      ((run (run s xs).1 ys).1, (run s xs).2 ++ (run (run s xs).1 ys).2) := by
  induction xs generalizing s with
  | nil => simp [run]
  | cons x xs ih =>
      simp [run, ih, List.append_assoc]

/-- C1: for every sequence of Gate operations after which the Gate is
`Enabled`, a further `Print`, `Printf` or `Println` call extends the sink
trace by exactly one corresponding call, with the arguments (and, for
`Printf`, the format string) forwarded verbatim to the current sink, and
leaves the Gate state unchanged. -/
theorem enabled_call_forwards_verbatim {α : Type} (ops : List (Op α))
    (v : List α) (f : String)
    (h : (run jotter ops).1.enabled = true) :
    run jotter (ops ++ [Op.print v]) =
      ((run jotter ops).1,
        (run jotter ops).2 ++
          [((run jotter ops).1.printer, PrinterCall.print v)]) ∧
    run jotter (ops ++ [Op.printf f v]) =
      ((run jotter ops).1,
        (run jotter ops).2 ++
          [((run jotter ops).1.printer, PrinterCall.printf f v)]) ∧
    run jotter (ops ++ [Op.println v]) =
      ((run jotter ops).1,
        (run jotter ops).2 ++
          [((run jotter ops).1.printer, PrinterCall.println v)]) := by
  refine ⟨?_, ?_, ?_⟩ <;>
    simp [run_append, run, step, Print, Printf, Println,
      Jotter.Print, Jotter.Printf, Jotter.Println, h]

/-- Witness for C1 at the sequence `[enable]` and the call `Print [1, 2]`. -/
theorem enabled_call_forwards_verbatim_witness :
    run jotter ([Op.enable] ++ [Op.print [1, 2]]) =
      ((run jotter [Op.enable (α := Nat)]).1,
        (run jotter [Op.enable (α := Nat)]).2 ++
          [((run jotter [Op.enable (α := Nat)]).1.printer,
            PrinterCall.print [1, 2])]) :=
  (enabled_call_forwards_verbatim [Op.enable] [1, 2] "x" rfl).1

/-- C2: for every sequence of Gate operations after which the Gate is
`Disabled`, a further `Print`, `Printf` or `Println` call adds no sink calls
to the trace and leaves the Gate state unchanged: the invocation is a no-op
with respect to the sink. -/
theorem disabled_call_is_noop {α : Type} (ops : List (Op α))
    (v : List α) (f : String)
    (h : (run jotter ops).1.enabled = false) :
    run jotter (ops ++ [Op.print v]) = run jotter ops ∧
    run jotter (ops ++ [Op.printf f v]) = run jotter ops ∧
    run jotter (ops ++ [Op.println v]) = run jotter ops := by
  refine ⟨?_, ?_, ?_⟩ <;>
    simp [run_append, run, step, Print, Printf, Println,
      Jotter.Print, Jotter.Printf, Jotter.Println, h]

/-- Witness for C2 at the sequence `[enable, disable]` and the call
`Println [7]`. -/
theorem disabled_call_is_noop_witness :
    run jotter ([Op.enable, Op.disable] ++ [Op.println [7]]) =
      run jotter [Op.enable (α := Nat), Op.disable] :=
  (disabled_call_is_noop [Op.enable, Op.disable] [7] "x" rfl).2.2

/-- C5: the standard package-level `Jotter` instance is constructed with
`enabled = false`, so a package-level `Print` call made before any `Enable`
produces no sink calls and leaves the state unchanged. -/
theorem default_instance_starts_disabled :
    jotter.enabled = false ∧
    ∀ (α : Type) (v : List α), Print v jotter = (jotter, []) := by
  exact ⟨rfl, fun α v => by simp [Print, Jotter.Print, jotter]⟩

/-- C7: from every Gate state, `Enable()` followed immediately by
`Disable()` leaves the Gate `Disabled`; the composite equals a single
`Disable()` (last-write-wins, no merging of transitions). -/
theorem enable_then_disable_is_disabled (s : Jotter) :
    (s.Enable.Disable).enabled = false ∧ s.Enable.Disable = s.Disable := by
  exact ⟨rfl, rfl⟩

/-- C8: `Enable()` is idempotent on every Gate state, and symmetrically
`Disable()` is idempotent: a second consecutive call yields the same state
as one call. -/
theorem enable_disable_idempotent (s : Jotter) :
    s.Enable.Enable = s.Enable ∧ s.Disable.Disable = s.Disable := by
  exact ⟨rfl, rfl⟩

/-- C3 counterexample: the standard instance is constructed with a non-nil
sink, yet package-level `SetPrinter` applied to a nil sink stores the nil
reference verbatim — the "sink is never null after construction" invariant
is not preserved: the nil argument is neither rejected nor replaced by the
default sink. -/
theorem setPrinter_nil_stored_counterexample :
    jotter.printer ≠ none ∧ (SetPrinter none jotter).printer = none := by
  exact ⟨fun h => Option.noConfusion h, rfl⟩

/-- C3 amended: after construction the standard instance's sink reference is
non-nil, and `SetPrinter` stores its argument unconditionally (leaving the
enabled flag unchanged); in particular a nil argument replaces the sink
reference with nil, with no rejection and no substitution of the default. -/
theorem setPrinter_stores_argument_unconditionally :
    jotter.printer ≠ none ∧
    ∀ (s : Jotter) (p : Option Printer),
      (SetPrinter p s).printer = p ∧ (SetPrinter p s).enabled = s.enabled := by
  exact ⟨fun h => Option.noConfusion h, fun s p => ⟨rfl, rfl⟩⟩

/-- C4: every package-level function equals the corresponding Gate operation
applied to the standard shared instance's state: same resulting state and
same sink calls, for every state and every argument list. -/
theorem package_functions_delegate (s : Jotter) (p : Option Printer) :
    Enable s = s.Enable ∧
    Disable s = s.Disable ∧
    SetPrinter p s = s.SetPrinter p ∧
    ∀ (α : Type) (v : List α) (f : String),
      Print v s = s.Print v ∧
      Printf f v s = s.Printf f v ∧
      Println v s = s.Println v := by
  exact ⟨rfl, rfl, rfl, fun α v f => ⟨rfl, rfl, rfl⟩⟩

/-- C6: `SetPrinter` replaces only the sink reference: the enabled flag is
unchanged (enabled stays enabled, disabled stays disabled), and a subsequent
forwarded call goes to the new sink — it emits exactly one call to the new
reference when the state is enabled and none when disabled. -/
theorem setPrinter_frame (s : Jotter) (p : Option Printer) :
    (SetPrinter p s).enabled = s.enabled ∧
    (SetPrinter p s).printer = p ∧
    ∀ (α : Type) (v : List α) (f : String),
      (SetPrinter p s).Print v =
        (SetPrinter p s,
          if s.enabled then [(p, PrinterCall.print v)] else []) ∧
      (SetPrinter p s).Printf f v =
        (SetPrinter p s,
          if s.enabled then [(p, PrinterCall.printf f v)] else []) ∧
      (SetPrinter p s).Println v =
        (SetPrinter p s,
          if s.enabled then [(p, PrinterCall.println v)] else []) := by
  refine ⟨rfl, rfl, fun α v f => ⟨?_, ?_, ?_⟩⟩ <;>
    · simp only [SetPrinter, Jotter.Print, Jotter.Printf, Jotter.Println]
      by_cases h : s.enabled <;> simp [h]

/-- C9: the standard instance's sink is a standard `log.Logger` built by
`log.New(os.Stderr, "", log.LstdFlags)`: it targets the standard error
stream, has an empty line marker, and carries exactly the standard timestamp
flags `Ldate | Ltime` with the UTC bit clear (local-time format). -/
theorem default_sink_is_stderr_logger :
    ∃ l : GoLog.Logger,
      jotter.printer = some (Printer.logger l) ∧
      l = GoLog.New Writer.stderr "" GoLog.LstdFlags ∧
      l.out = Writer.stderr ∧
      l.pfx = "" ∧
      l.flag = GoLog.Ldate ||| GoLog.Ltime ∧
      l.flag &&& GoLog.LUTC = 0 := by
  exact ⟨GoLog.New Writer.stderr "" GoLog.LstdFlags,
    rfl, rfl, rfl, rfl, rfl, rfl⟩

end Jot
